import Mathlib

set_option maxRecDepth 100000

/-!
Shallow embedding of the configuration/wiring code of the
`bq_and_vais_adk` repository (files `app/config.py` and `app/agent.py`).

The repository resolves settings from environment variables and ambient
cloud credentials (`app/config.py`) and wires up an agent with a BigQuery
toolset and a Discovery Engine search tool (`app/agent.py`).  Both files
run straight-line code at import time, so they are embedded as pure
functions of the process environment, the ambient-credential state and
the current date.  Failure of `google.auth.default()` (the only fallible
step) is modelled with `Except`.
-/

namespace BqVais

/-- The process environment restricted to the variables the two modules
read or write.  `none` means the variable is unset.  Mirrors the
`os.getenv` / `os.environ` accesses in `app/config.py`. -/
structure Env where
  modelName : Option String
  bqDatasetId : Option String
  bqTableId : Option String
  bqLocation : Option String
  dataStoreId : Option String
  dataStoreRegion : Option String
  vertexAiSearchDatastore : Option String
  googleCloudProject : Option String
  googleCloudLocation : Option String
  googleGenaiUseVertexai : Option String
  deriving DecidableEq, Repr

/-- An ambient (Application Default) credentials object, as returned in
the first component of `google.auth.default()`.  Its internals are
irrelevant to this code; it is only stored and passed on. -/
structure Credentials where
  token : String
  deriving DecidableEq, Repr

/-- The ambient-credential state of the process: `google.auth.default()`
either returns a `(credentials, project_id)` pair or raises
`DefaultCredentialsError`.  `none` models the raising case. -/
def AuthState : Type := Option (Credentials × String)

/-- Python renders `None` inside an f-string as the literal text
`"None"`; any other string is rendered verbatim.  Used wherever
`app/config.py` / `app/agent.py` interpolate a possibly-`None` value. -/
def pyStr : Option String → String
  | none => "None"
  | some s => s

/-- The resolved settings bundle: the module-level names `app/config.py`
ends up defining.  Optional variables without a default stay `Option`
(`os.getenv(name)` returns `None` when unset). -/
structure Config where
  PROJECT_ID : String
  MODEL_NAME : String
  BQ_DATASET_ID : Option String
  BQ_TABLE_ID : Option String
  BQ_LOCATION : String
  DATA_STORE_ID : Option String
  DATA_STORE_REGION : String
  VERTEX_AI_SEARCH_DATASTORE : String
  deriving DecidableEq, Repr

/-- `app/config.py`, run at import time.  `_, PROJECT_ID =
google.auth.default()` raises when no credentials resolve; otherwise the
module mutates three process-environment variables (`setdefault` for
`GOOGLE_CLOUD_PROJECT`, plain assignment for the other two) and resolves
every setting with `os.getenv`.  Returns the settings bundle together
with the mutated environment. -/
def resolveConfig (auth : AuthState) (env : Env) : Except String (Config × Env) :=
  match auth with
  | none => .error "DefaultCredentialsError"
  | some (_, PROJECT_ID) =>
    let env1 : Env := { env with
      googleCloudProject := some (env.googleCloudProject.getD PROJECT_ID),
      googleCloudLocation := some "global",
      googleGenaiUseVertexai := some "True" }
    let MODEL_NAME := env.modelName.getD "gemini-3-pro-preview"
    let BQ_DATASET_ID := env.bqDatasetId
    let BQ_TABLE_ID := env.bqTableId
    let BQ_LOCATION := env.bqLocation.getD "us-central1"
    let DATA_STORE_ID := env.dataStoreId
    let DATA_STORE_REGION := env.dataStoreRegion.getD "global"
    let VERTEX_AI_SEARCH_DATASTORE := env.vertexAiSearchDatastore.getD
      ("projects/" ++ PROJECT_ID ++ "/locations/" ++ DATA_STORE_REGION ++
       "/collections/default_collection/dataStores/" ++ pyStr DATA_STORE_ID)
    .ok (⟨PROJECT_ID, MODEL_NAME, BQ_DATASET_ID, BQ_TABLE_ID, BQ_LOCATION,
          DATA_STORE_ID, DATA_STORE_REGION, VERTEX_AI_SEARCH_DATASTORE⟩, env1)

/-- `WriteMode` of `google.adk.tools.bigquery.config`: `BLOCKED` forbids
writes, the other variants allow some form of write. -/
inductive WriteMode where
  | BLOCKED
  | PROTECTED
  | ALLOWED
  deriving DecidableEq, Repr

/-- `BigQueryToolConfig(write_mode=...)`. -/
structure BigQueryToolConfig where
  write_mode : WriteMode
  deriving DecidableEq, Repr

/-- `BigQueryCredentialsConfig(credentials=...)`. -/
structure BigQueryCredentialsConfig where
  credentials : Credentials
  deriving DecidableEq, Repr

/-- The two tool bindings `app/agent.py` constructs: the BigQuery
toolset and the custom Discovery Engine search tool (parameterised by
its datastore resource path). -/
inductive Tool where
  | BigQueryToolset (credentials_config : BigQueryCredentialsConfig)
      (bigquery_tool_config : BigQueryToolConfig)
  | DiscoveryEngineSearchTool (data_store_id : String)
  deriving DecidableEq, Repr

/-- `bq_tool_config = BigQueryToolConfig(write_mode=WriteMode.BLOCKED)`
in `app/agent.py`: a constant, not read from the environment. -/
def bq_tool_config : BigQueryToolConfig := ⟨WriteMode.BLOCKED⟩

/-- A calendar date, for `date.today()`. -/
structure Date where
  year : Nat
  month : Nat
  day : Nat
  deriving DecidableEq, Repr

/-- Zero-pad a numeral to two digits (`strftime` `%m` / `%d`). -/
def pad2 (n : Nat) : String :=
  if n < 10 then "0" ++ toString n else toString n

/-- Zero-pad a numeral to four digits (`strftime` `%Y`). -/
def pad4 (n : Nat) : String :=
  if n < 10 then "000" ++ toString n
  else if n < 100 then "00" ++ toString n
  else if n < 1000 then "0" ++ toString n
  else toString n

/-- `date.today().strftime("%Y-%m-%d")`. -/
def fmtDate (d : Date) : String :=
  pad4 d.year ++ "-" ++ pad2 d.month ++ "-" ++ pad2 d.day

/-- Literal text of the `INSTRUCTION` f-string of `app/agent.py` up to
the interpolated current date. -/
def instrA : String :=
  "\nYou are a Hybrid Analysis Agent capable of answering complex questions by correlating\nstructured data from BigQuery with unstructured documents from Vertex AI Search.\n\nToday\x27s date is: "

/-- Literal text between the interpolated date and `{PROJECT_ID}`. -/
def instrB : String :=
  "\n\n<YOUR_CAPABILITIES>\nYou have access to TWO complementary data sources:\n\n1. **Structured Database (BigQuery)**:\n   - Project: "

/-- Literal text between `{PROJECT_ID}` and the first
`{BQ_DATASET_ID}`. -/
def instrC : String :=
  "\n   - Dataset: "

/-- Literal text between the first `{BQ_DATASET_ID}` and the first
`{BQ_TABLE_ID}`. -/
def instrD : String :=
  "\n   - Table: "

/-- Literal text between the first `{BQ_TABLE_ID}` and the second
`{BQ_DATASET_ID}` (inside the `execute_sql` example). -/
def instrE : String :=
  "\n   \n   Contains structured records. You can query this to identify specific entities,\n   metrics, or trends.\n\n2. **Unstructured Documents (Vertex AI Search)**:\n   Contains documents, reports, or other unstructured text that provides\n   qualitative context, details, and ground truth information not found in the database.\n\n</YOUR_CAPABILITIES>\n\n<YOUR_TOOLS>\n\n**BigQuery Tools** (for structured data):\n- `execute_sql`: Run SQL queries to filter, aggregate, and retrieve specific records.\n  - Example: \"SELECT * FROM "

/-- Literal text between the second `{BQ_DATASET_ID}` and the second
`{BQ_TABLE_ID}`: the dot of the qualified table name. -/
def instrF : String := "."

/-- Literal text of the f-string after the second `{BQ_TABLE_ID}`. -/
def instrG : String :=
  " WHERE <condition> LIMIT 10\"\n- `ask_data_insights`: Ask natural language questions about the data schema or content.\n- `get_table_info`: specific details about table schemas.\n\n**Document Search Tools** (for unstructured data):\n- `search_documents`: Search the document repository for qualitative information.\n  - Use specific queries related to the entities found in your BigQuery analysis.\n  - Returns: Relevant excerpts from documents.\n\n</YOUR_TOOLS>\n\n<YOUR_WORKFLOW>\n\nWhen asked to perform an analysis, follow this general approach:\n\n1. **Explore Structured Data**:\n   - Use `get_table_info` to understand the schema if needed.\n   - Use `execute_sql` or `ask_data_insights` to retrieve relevant records,\n     identify key entities, or filter based on the user\x27s criteria.\n\n2. **Deep Dive with Unstructured Search**:\n   - For the entities or topics identified in Step 1, use `search_documents`.\n   - Formulate specific search queries to find detailed information, context,\n     or verification from the documents.\n\n3. **Synthesize Findings**:\n   - Combine the quantitative facts from BigQuery with the qualitative insights\n     from Vertex AI Search.\n   - clearly distinguish between what the database says and what the documents say.\n   - Provide a comprehensive answer that addresses the user\x27s specific question.\n\n</YOUR_WORKFLOW>\n\n<IMPORTANT_NOTES>\n\n- **Hybrid Search is Key**: The database gives you the \"what\" and \"how much\",\n  while the documents give you the \"why\" and \"details\".\n- **Cross-Verification**: Use the documents to verify or expand upon the\n  information found in the database.\n- **Be Adaptable**: Your analysis depends on the user\x27s domain. Adapt your\n  queries and searches to the specific context of the request.\n\n</IMPORTANT_NOTES>\n"

/-- The `INSTRUCTION` f-string of `app/agent.py`, as a function of the
four interpolated values (the formatted current date, `PROJECT_ID`,
`BQ_DATASET_ID`, `BQ_TABLE_ID`; the latter two already rendered as
Python renders them). -/
def INSTRUCTION (today PROJECT_ID BQ_DATASET_ID BQ_TABLE_ID : String) : String :=
  instrA ++ today ++ instrB ++ PROJECT_ID ++ instrC ++ BQ_DATASET_ID ++
  instrD ++ BQ_TABLE_ID ++ instrE ++ BQ_DATASET_ID ++ instrF ++
  BQ_TABLE_ID ++ instrG

/-- `GenerateContentConfig(temperature=0.1)`.  The temperature is a
stored literal, never computed with, so it is modelled as a rational. -/
structure GenerateContentConfig where
  temperature : ℚ
  deriving DecidableEq, Repr

/-- The `Agent(...)` object `app/agent.py` constructs. -/
structure Agent where
  name : String
  model : String
  instruction : String
  tools : List Tool
  generate_content_config : GenerateContentConfig
  deriving DecidableEq, Repr

/-- The `App(root_agent=..., name="app")` wrapper. -/
structure App where
  root_agent : Agent
  name : String
  deriving DecidableEq, Repr

/-- `app/agent.py`, run at import time.  Importing `app.config` runs
`resolveConfig`; the module then calls `google.auth.default()` again for
the credentials object, builds the constant `bq_tool_config`, the two
tool bindings, the `INSTRUCTION` text and the `root_agent`, and wraps it
in an `App`.  Either `google.auth.default()` call failing aborts the
whole import with no agent object. -/
def buildApp (auth : AuthState) (env : Env) (today : Date) : Except String App :=
  match resolveConfig auth env with
  | .error e => .error e
  | .ok (cfg, _) =>
    match auth with
    | none => .error "DefaultCredentialsError"
    | some (credentials, _) =>
      let bq_credentials_config : BigQueryCredentialsConfig := ⟨credentials⟩
      let search_tool := Tool.DiscoveryEngineSearchTool cfg.VERTEX_AI_SEARCH_DATASTORE
      let bigquery_toolset := Tool.BigQueryToolset bq_credentials_config bq_tool_config
      let instruction := INSTRUCTION (fmtDate today) cfg.PROJECT_ID
        (pyStr cfg.BQ_DATASET_ID) (pyStr cfg.BQ_TABLE_ID)
      let root_agent : Agent :=
        { name := "bqvaisadk"
          model := cfg.MODEL_NAME
          instruction := instruction
          tools := [bigquery_toolset, search_tool]
          generate_content_config := { temperature := (0.1 : ℚ) } }
      .ok { root_agent := root_agent, name := "app" }

/-- Sample ambient-credential state in which `google.auth.default()`
succeeds, returning a credentials object and the project id `proj`. -/
def authOk : AuthState := some (⟨"tok"⟩, "proj")

/-- Sample date. -/
def dateX : Date := ⟨2026, 10, 12⟩

/-- Sample environment with every consumed variable set. -/
def envComplete : Env :=
  { modelName := some "gemini-1.5-pro"
    bqDatasetId := some "spend"
    bqTableId := some "invoices"
    bqLocation := some "us-east1"
    dataStoreId := some "store1"
    dataStoreRegion := some "eu"
    vertexAiSearchDatastore := some "projects/p/locations/eu/collections/c/dataStores/d"
    googleCloudProject := some "preproj"
    googleCloudLocation := some "us-west1"
    googleGenaiUseVertexai := some "False" }

/-- Sample environment with every consumed variable unset. -/
def envEmpty : Env :=
  { modelName := none, bqDatasetId := none, bqTableId := none
    bqLocation := none, dataStoreId := none, dataStoreRegion := none
    vertexAiSearchDatastore := none, googleCloudProject := none
    googleCloudLocation := none, googleGenaiUseVertexai := none }

/-- Sample environment in which `GOOGLE_CLOUD_LOCATION` and
`GOOGLE_GENAI_USE_VERTEXAI` carry pre-existing values. -/
def envPreset : Env :=
  { envEmpty with
    googleCloudLocation := some "us-west1"
    googleGenaiUseVertexai := some "False" }

/-- The settings bundle and mutated environment produced by
`resolveConfig`, with a dummy fallback in the error case (used only to
state closed facts about successful runs). -/
def cfgOf (auth : AuthState) (env : Env) : Config × Env :=
  match resolveConfig auth env with
  | .ok x => x
  | .error _ => (⟨"", "", none, none, "", none, "", ""⟩, env)

/-- The app produced by `buildApp`, with a dummy fallback in the error
case (used only to state closed facts about successful runs). -/
def appOf (auth : AuthState) (env : Env) (d : Date) : App :=
  match buildApp auth env d with
  | .ok x => x
  | .error _ => ⟨⟨"", "", "", [], ⟨0⟩⟩, ""⟩

/-- `String.append` is associative (stated here because the toolchain
ships no lemma by this name). -/
theorem string_append_assoc (a b c : String) : a ++ b ++ c = a ++ (b ++ c) := by
  apply String.ext
  simp [String.data_append, List.append_assoc]

/-- C1: for every environment configuration (and auth state and date)
under which the agent is constructed, the BigQuery tool collection is
bound with `bq_tool_config`, whose write mode is `WriteMode.BLOCKED`;
every BigQuery toolset binding in the agent's tool list has write mode
`BLOCKED`, so no environment variable or setting can make it writable. -/
theorem C1_bigquery_write_mode_always_blocked
    (auth : AuthState) (env : Env) (d : Date) (app : App)
    (h : buildApp auth env d = .ok app) :
    bq_tool_config.write_mode = WriteMode.BLOCKED ∧
    ∀ cc tc, Tool.BigQueryToolset cc tc ∈ app.root_agent.tools →
      tc.write_mode = WriteMode.BLOCKED := by
  cases auth with
  | none => simp [buildApp, resolveConfig] at h
  | some p =>
    obtain ⟨c, pid⟩ := p
    refine ⟨rfl, ?_⟩
    intro cc tc hmem
    simp only [buildApp, resolveConfig] at h
    cases h
    simp only [List.mem_cons, List.not_mem_nil, or_false] at hmem
    rcases hmem with h1 | h1
    · cases h1
      rfl
    · cases h1

/-- Witness for C1 at a concrete input. -/
theorem C1_witness :
    bq_tool_config.write_mode = WriteMode.BLOCKED ∧
    ∀ cc tc, Tool.BigQueryToolset cc tc ∈ (appOf authOk envComplete dateX).root_agent.tools →
      tc.write_mode = WriteMode.BLOCKED :=
  C1_bigquery_write_mode_always_blocked authOk envComplete dateX
    (appOf authOk envComplete dateX) rfl

/-- C2: whenever `VERTEX_AI_SEARCH_DATASTORE` is set in the environment,
the resolved setting equals that override verbatim, regardless of every
other variable; when it is unset, the resolved setting is exactly the
template `projects/{PROJECT_ID}/locations/{DATA_STORE_REGION}/collections/default_collection/dataStores/{DATA_STORE_ID}`
instantiated with the resolved project id, region and datastore id. -/
theorem C2_datastore_override_or_template
    (c : Credentials) (pid : String) (env : Env) (cfg : Config) (env2 : Env)
    (h : resolveConfig (some (c, pid)) env = .ok (cfg, env2)) :
    (∀ s, env.vertexAiSearchDatastore = some s →
      cfg.VERTEX_AI_SEARCH_DATASTORE = s) ∧
    (env.vertexAiSearchDatastore = none →
      cfg.VERTEX_AI_SEARCH_DATASTORE =
        "projects/" ++ cfg.PROJECT_ID ++ "/locations/" ++ cfg.DATA_STORE_REGION ++
        "/collections/default_collection/dataStores/" ++ pyStr cfg.DATA_STORE_ID) := by
  simp only [resolveConfig, Except.ok.injEq, Prod.mk.injEq] at h
  obtain ⟨hcfg, henv⟩ := h
  subst hcfg
  constructor
  · intro s hs
    simp [hs, Option.getD]
  · intro hs
    simp [hs, Option.getD]

/-- Witness for C2 at a concrete input. -/
theorem C2_witness :
    (∀ s, envComplete.vertexAiSearchDatastore = some s →
      (cfgOf authOk envComplete).1.VERTEX_AI_SEARCH_DATASTORE = s) ∧
    (envComplete.vertexAiSearchDatastore = none →
      (cfgOf authOk envComplete).1.VERTEX_AI_SEARCH_DATASTORE =
        "projects/" ++ (cfgOf authOk envComplete).1.PROJECT_ID ++ "/locations/" ++
        (cfgOf authOk envComplete).1.DATA_STORE_REGION ++
        "/collections/default_collection/dataStores/" ++
        pyStr (cfgOf authOk envComplete).1.DATA_STORE_ID) :=
  C2_datastore_override_or_template ⟨"tok"⟩ "proj" envComplete
    (cfgOf authOk envComplete).1 (cfgOf authOk envComplete).2 rfl

/-- C3: when ambient credential resolution fails, settings resolution
and agent construction both fail with the credential error, for every
environment and date: no settings bundle and no (even partial) agent
object is produced, and there is no recovery path. -/
theorem C3_credential_failure_is_fatal (env : Env) (d : Date) :
    resolveConfig none env = .error "DefaultCredentialsError" ∧
    buildApp none env d = .error "DefaultCredentialsError" := by
  exact ⟨rfl, rfl⟩

/-- C4 counterexample: with every one of `BQ_DATASET_ID`, `BQ_TABLE_ID`
and `DATA_STORE_ID` missing from the environment (and no defaults for
them), configuration does not fail at all: settings resolution and agent
construction both succeed, refuting the claimed fatal failure at first
use. -/
theorem C4_counterexample_missing_values_do_not_fail :
    envEmpty.bqDatasetId = none ∧ envEmpty.bqTableId = none ∧
    envEmpty.dataStoreId = none ∧
    (resolveConfig authOk envEmpty).isOk = true ∧
    (buildApp authOk envEmpty dateX).isOk = true := by
  exact ⟨rfl, rfl, rfl, rfl, rfl⟩

/-- C4 amended: a missing environment value with no default (dataset id,
table id, datastore id) never causes a failure during configuration: it
resolves to Python `None`, is rendered as the literal string `None`
where interpolated, and settings resolution and agent construction
succeed whenever credentials resolve. -/
theorem C4_amended_missing_values_resolve_to_none
    (c : Credentials) (pid : String) (env : Env) (d : Date) :
    (resolveConfig (some (c, pid)) env).isOk = true ∧
    (buildApp (some (c, pid)) env d).isOk = true ∧
    (env.bqDatasetId = none →
      (cfgOf (some (c, pid)) env).1.BQ_DATASET_ID = none ∧
      pyStr (cfgOf (some (c, pid)) env).1.BQ_DATASET_ID = "None") := by
  refine ⟨rfl, ?_, ?_⟩
  · simp [buildApp, resolveConfig, Except.isOk, Except.toBool]
  · intro hds
    simp [cfgOf, resolveConfig, hds, pyStr]

/-- Witness for C4's amended theorem at a concrete input. -/
theorem C4_amended_witness :
    (resolveConfig (some (⟨"tok"⟩, "proj")) envEmpty).isOk = true ∧
    (buildApp (some (⟨"tok"⟩, "proj")) envEmpty dateX).isOk = true ∧
    (envEmpty.bqDatasetId = none →
      (cfgOf (some (⟨"tok"⟩, "proj")) envEmpty).1.BQ_DATASET_ID = none ∧
      pyStr (cfgOf (some (⟨"tok"⟩, "proj")) envEmpty).1.BQ_DATASET_ID = "None") :=
  C4_amended_missing_values_resolve_to_none ⟨"tok"⟩ "proj" envEmpty dateX

/-- C5: every absent optional environment variable resolves to its fixed
default: `MODEL_NAME` to `gemini-3-pro-preview`, `DATA_STORE_REGION` to
`global`, `BQ_LOCATION` to `us-central1`. -/
theorem C5_absent_optional_vars_take_defaults
    (c : Credentials) (pid : String) (env : Env) (cfg : Config) (env2 : Env)
    (h : resolveConfig (some (c, pid)) env = .ok (cfg, env2)) :
    (env.modelName = none → cfg.MODEL_NAME = "gemini-3-pro-preview") ∧
    (env.dataStoreRegion = none → cfg.DATA_STORE_REGION = "global") ∧
    (env.bqLocation = none → cfg.BQ_LOCATION = "us-central1") := by
  simp only [resolveConfig, Except.ok.injEq, Prod.mk.injEq] at h
  obtain ⟨hcfg, henv⟩ := h
  subst hcfg
  refine ⟨?_, ?_, ?_⟩ <;> intro hs <;> simp [hs, Option.getD]

/-- Witness for C5 at a concrete input. -/
theorem C5_witness :
    (envEmpty.modelName = none →
      (cfgOf authOk envEmpty).1.MODEL_NAME = "gemini-3-pro-preview") ∧
    (envEmpty.dataStoreRegion = none →
      (cfgOf authOk envEmpty).1.DATA_STORE_REGION = "global") ∧
    (envEmpty.bqLocation = none →
      (cfgOf authOk envEmpty).1.BQ_LOCATION = "us-central1") :=
  C5_absent_optional_vars_take_defaults ⟨"tok"⟩ "proj" envEmpty
    (cfgOf authOk envEmpty).1 (cfgOf authOk envEmpty).2 rfl

/-- The instruction text splits at the `Today's date is: ` marker. -/
theorem instr_split_date (t p ds tb : String) :
    INSTRUCTION t p ds tb =
      "\nYou are a Hybrid Analysis Agent capable of answering complex questions by correlating\nstructured data from BigQuery with unstructured documents from Vertex AI Search.\n\n" ++
      ("Today\x27s date is: " ++ t) ++
      (instrB ++ p ++ instrC ++ ds ++ instrD ++ tb ++ instrE ++ ds ++ instrF ++ tb ++ instrG) := by
  simp only [INSTRUCTION]
  rw [show instrA =
    "\nYou are a Hybrid Analysis Agent capable of answering complex questions by correlating\nstructured data from BigQuery with unstructured documents from Vertex AI Search.\n\n" ++
    "Today\x27s date is: " from by decide]
  simp only [string_append_assoc]

/-- The instruction text splits at the `- Project: ` marker. -/
theorem instr_split_project (t p ds tb : String) :
    INSTRUCTION t p ds tb =
      (instrA ++ t ++ "\n\n<YOUR_CAPABILITIES>\nYou have access to TWO complementary data sources:\n\n1. **Structured Database (BigQuery)**:\n   ") ++
      ("- Project: " ++ p) ++
      (instrC ++ ds ++ instrD ++ tb ++ instrE ++ ds ++ instrF ++ tb ++ instrG) := by
  simp only [INSTRUCTION]
  rw [show instrB =
    "\n\n<YOUR_CAPABILITIES>\nYou have access to TWO complementary data sources:\n\n1. **Structured Database (BigQuery)**:\n   " ++
    "- Project: " from by decide]
  simp only [string_append_assoc]

/-- The instruction text splits at the first `- Dataset: ` marker. -/
theorem instr_split_dataset (t p ds tb : String) :
    INSTRUCTION t p ds tb =
      (instrA ++ t ++ instrB ++ p ++ "\n   ") ++ ("- Dataset: " ++ ds) ++
      (instrD ++ tb ++ instrE ++ ds ++ instrF ++ tb ++ instrG) := by
  simp only [INSTRUCTION]
  rw [show instrC = "\n   " ++ "- Dataset: " from by decide]
  simp only [string_append_assoc]

/-- The instruction text splits at the first `- Table: ` marker. -/
theorem instr_split_table (t p ds tb : String) :
    INSTRUCTION t p ds tb =
      (instrA ++ t ++ instrB ++ p ++ instrC ++ ds ++ "\n   ") ++
      ("- Table: " ++ tb) ++
      (instrE ++ ds ++ instrF ++ tb ++ instrG) := by
  simp only [INSTRUCTION]
  rw [show instrD = "\n   " ++ "- Table: " from by decide]
  simp only [string_append_assoc]

/-- C6: the constructed agent's instruction text is the instruction
template instantiated with the formatted current date and the resolved
project id, dataset id and table id, and each of the four values occurs
right after its expected marker (`Today's date is: `, `- Project: `,
`- Dataset: `, `- Table: `). -/
theorem C6_instruction_contains_resolved_values
    (auth : AuthState) (env : Env) (d : Date) (app : App) (cfg : Config) (env2 : Env)
    (hc : resolveConfig auth env = .ok (cfg, env2))
    (h : buildApp auth env d = .ok app) :
    app.root_agent.instruction =
      INSTRUCTION (fmtDate d) cfg.PROJECT_ID
        (pyStr cfg.BQ_DATASET_ID) (pyStr cfg.BQ_TABLE_ID) ∧
    (∃ a b, app.root_agent.instruction =
      a ++ ("Today\x27s date is: " ++ fmtDate d) ++ b) ∧
    (∃ a b, app.root_agent.instruction =
      a ++ ("- Project: " ++ cfg.PROJECT_ID) ++ b) ∧
    (∃ a b, app.root_agent.instruction =
      a ++ ("- Dataset: " ++ pyStr cfg.BQ_DATASET_ID) ++ b) ∧
    (∃ a b, app.root_agent.instruction =
      a ++ ("- Table: " ++ pyStr cfg.BQ_TABLE_ID) ++ b) := by
  cases auth with
  | none => simp [buildApp, resolveConfig] at h
  | some p =>
    obtain ⟨c, pid⟩ := p
    simp only [resolveConfig, Except.ok.injEq, Prod.mk.injEq] at hc
    obtain ⟨hcfg, henv⟩ := hc
    subst hcfg
    simp only [buildApp, resolveConfig] at h
    cases h
    refine ⟨rfl, ⟨_, _, instr_split_date _ _ _ _⟩, ⟨_, _, instr_split_project _ _ _ _⟩,
      ⟨_, _, instr_split_dataset _ _ _ _⟩, ⟨_, _, instr_split_table _ _ _ _⟩⟩

/-- Witness for C6 at a concrete input. -/
theorem C6_witness :
    (appOf authOk envComplete dateX).root_agent.instruction =
      INSTRUCTION (fmtDate dateX) (cfgOf authOk envComplete).1.PROJECT_ID
        (pyStr (cfgOf authOk envComplete).1.BQ_DATASET_ID)
        (pyStr (cfgOf authOk envComplete).1.BQ_TABLE_ID) ∧
    (∃ a b, (appOf authOk envComplete dateX).root_agent.instruction =
      a ++ ("Today\x27s date is: " ++ fmtDate dateX) ++ b) ∧
    (∃ a b, (appOf authOk envComplete dateX).root_agent.instruction =
      a ++ ("- Project: " ++ (cfgOf authOk envComplete).1.PROJECT_ID) ++ b) ∧
    (∃ a b, (appOf authOk envComplete dateX).root_agent.instruction =
      a ++ ("- Dataset: " ++ pyStr (cfgOf authOk envComplete).1.BQ_DATASET_ID) ++ b) ∧
    (∃ a b, (appOf authOk envComplete dateX).root_agent.instruction =
      a ++ ("- Table: " ++ pyStr (cfgOf authOk envComplete).1.BQ_TABLE_ID) ++ b) :=
  C6_instruction_contains_resolved_values authOk envComplete dateX
    (appOf authOk envComplete dateX) (cfgOf authOk envComplete).1
    (cfgOf authOk envComplete).2 rfl rfl

/-- C7 counterexample: `GOOGLE_CLOUD_LOCATION` is set with plain
assignment, not `setdefault`, so a value already present in the process
environment before resolution is overwritten with `global`, refuting the
claim that every touched variable keeps its pre-existing value. -/
theorem C7_counterexample_location_overwritten :
    envPreset.googleCloudLocation = some "us-west1" ∧
    (resolveConfig authOk envPreset).isOk = true ∧
    (cfgOf authOk envPreset).2.googleCloudLocation = some "global" ∧
    (cfgOf authOk envPreset).2.googleCloudLocation ≠ envPreset.googleCloudLocation := by
  exact ⟨rfl, rfl, rfl, by decide⟩

/-- C7 amended: the environment mutation during settings resolution
touches exactly `GOOGLE_CLOUD_PROJECT`, `GOOGLE_CLOUD_LOCATION` and
`GOOGLE_GENAI_USE_VERTEXAI`.  Only `GOOGLE_CLOUD_PROJECT` is set as a
default (a pre-existing value is kept, otherwise the detected project id
is installed); `GOOGLE_CLOUD_LOCATION` and `GOOGLE_GENAI_USE_VERTEXAI`
are unconditionally overwritten with `global` and `True`.  Every other
variable is left unchanged. -/
theorem C7_amended_env_mutation
    (c : Credentials) (pid : String) (env : Env) (cfg : Config) (env2 : Env)
    (h : resolveConfig (some (c, pid)) env = .ok (cfg, env2)) :
    (∀ v, env.googleCloudProject = some v → env2.googleCloudProject = some v) ∧
    (env.googleCloudProject = none → env2.googleCloudProject = some pid) ∧
    env2.googleCloudLocation = some "global" ∧
    env2.googleGenaiUseVertexai = some "True" ∧
    env2.modelName = env.modelName ∧
    env2.bqDatasetId = env.bqDatasetId ∧
    env2.bqTableId = env.bqTableId ∧
    env2.bqLocation = env.bqLocation ∧
    env2.dataStoreId = env.dataStoreId ∧
    env2.dataStoreRegion = env.dataStoreRegion ∧
    env2.vertexAiSearchDatastore = env.vertexAiSearchDatastore := by
  simp only [resolveConfig, Except.ok.injEq, Prod.mk.injEq] at h
  obtain ⟨hcfg, henv⟩ := h
  subst henv
  refine ⟨?_, ?_, rfl, rfl, rfl, rfl, rfl, rfl, rfl, rfl, rfl⟩
  · intro v hv
    simp [hv, Option.getD]
  · intro hv
    simp [hv, Option.getD]

/-- Witness for C7's amended theorem at a concrete input. -/
theorem C7_amended_witness :
    (∀ v, envPreset.googleCloudProject = some v →
      (cfgOf authOk envPreset).2.googleCloudProject = some v) ∧
    (envPreset.googleCloudProject = none →
      (cfgOf authOk envPreset).2.googleCloudProject = some "proj") ∧
    (cfgOf authOk envPreset).2.googleCloudLocation = some "global" ∧
    (cfgOf authOk envPreset).2.googleGenaiUseVertexai = some "True" ∧
    (cfgOf authOk envPreset).2.modelName = envPreset.modelName ∧
    (cfgOf authOk envPreset).2.bqDatasetId = envPreset.bqDatasetId ∧
    (cfgOf authOk envPreset).2.bqTableId = envPreset.bqTableId ∧
    (cfgOf authOk envPreset).2.bqLocation = envPreset.bqLocation ∧
    (cfgOf authOk envPreset).2.dataStoreId = envPreset.dataStoreId ∧
    (cfgOf authOk envPreset).2.dataStoreRegion = envPreset.dataStoreRegion ∧
    (cfgOf authOk envPreset).2.vertexAiSearchDatastore = envPreset.vertexAiSearchDatastore :=
  C7_amended_env_mutation ⟨"tok"⟩ "proj" envPreset
    (cfgOf authOk envPreset).1 (cfgOf authOk envPreset).2 rfl

/-- C8: whenever the agent is constructed, its tool list is exactly two
bindings in this order: the BigQuery toolset (carrying the ambient
credentials and the blocked-write tool config) and the custom
`DiscoveryEngineSearchTool` parameterised by the resolved datastore
path. -/
theorem C8_tool_list_exactly_two
    (auth : AuthState) (env : Env) (d : Date) (app : App) (cfg : Config) (env2 : Env)
    (hc : resolveConfig auth env = .ok (cfg, env2))
    (h : buildApp auth env d = .ok app) :
    ∃ creds, auth = some creds ∧
      app.root_agent.tools =
        [Tool.BigQueryToolset ⟨creds.1⟩ bq_tool_config,
         Tool.DiscoveryEngineSearchTool cfg.VERTEX_AI_SEARCH_DATASTORE] := by
  cases auth with
  | none => simp [buildApp, resolveConfig] at h
  | some p =>
    obtain ⟨c, pid⟩ := p
    simp only [resolveConfig, Except.ok.injEq, Prod.mk.injEq] at hc
    obtain ⟨hcfg, henv⟩ := hc
    subst hcfg
    simp only [buildApp, resolveConfig] at h
    cases h
    exact ⟨(c, pid), rfl, rfl⟩

/-- Witness for C8 at a concrete input. -/
theorem C8_witness :
    ∃ creds, authOk = some creds ∧
      (appOf authOk envComplete dateX).root_agent.tools =
        [Tool.BigQueryToolset ⟨creds.1⟩ bq_tool_config,
         Tool.DiscoveryEngineSearchTool (cfgOf authOk envComplete).1.VERTEX_AI_SEARCH_DATASTORE] :=
  C8_tool_list_exactly_two authOk envComplete dateX
    (appOf authOk envComplete dateX) (cfgOf authOk envComplete).1
    (cfgOf authOk envComplete).2 rfl rfl

/-- C9: when both `VERTEX_AI_SEARCH_DATASTORE` and `DATA_STORE_ID` are
absent, settings resolution still succeeds and the resolved datastore
path is the template with the literal text `None` as its final
`dataStores` segment. -/
theorem C9_absent_ids_yield_none_segment
    (c : Credentials) (pid : String) (env : Env)
    (h1 : env.vertexAiSearchDatastore = none) (h2 : env.dataStoreId = none) :
    ∃ cfg env2, resolveConfig (some (c, pid)) env = .ok (cfg, env2) ∧
      cfg.VERTEX_AI_SEARCH_DATASTORE =
        "projects/" ++ pid ++ "/locations/" ++ cfg.DATA_STORE_REGION ++
        "/collections/default_collection/dataStores/None" := by
  refine ⟨_, _, rfl, ?_⟩
  rw [show ("/collections/default_collection/dataStores/None" : String) =
    "/collections/default_collection/dataStores/" ++ "None" from by decide]
  simp [resolveConfig, h1, h2, pyStr, string_append_assoc]

/-- Witness for C9 at a concrete input. -/
theorem C9_witness :
    ∃ cfg env2, resolveConfig (some (⟨"tok"⟩, "proj")) envEmpty = .ok (cfg, env2) ∧
      cfg.VERTEX_AI_SEARCH_DATASTORE =
        "projects/" ++ "proj" ++ "/locations/" ++ cfg.DATA_STORE_REGION ++
        "/collections/default_collection/dataStores/None" :=
  C9_absent_ids_yield_none_segment ⟨"tok"⟩ "proj" envEmpty rfl rfl

/-- C10: settings resolution and agent construction are deterministic in
the environment, the ambient credentials (with detected project id) and
the current date: equal inputs give equal settings bundles and equal
apps; and every successfully constructed agent has name `bqvaisadk` and
generation temperature `0.1`, wrapped in an app named `app`. -/
theorem C10_construction_deterministic
    (a1 a2 : AuthState) (e1 e2 : Env) (d1 d2 : Date)
    (ha : a1 = a2) (he : e1 = e2) (hd : d1 = d2) :
    resolveConfig a1 e1 = resolveConfig a2 e2 ∧
    buildApp a1 e1 d1 = buildApp a2 e2 d2 ∧
    (∀ app, buildApp a1 e1 d1 = .ok app →
      app.root_agent.name = "bqvaisadk" ∧
      app.root_agent.generate_content_config.temperature = (0.1 : ℚ) ∧
      app.name = "app") := by
  subst ha
  subst he
  subst hd
  refine ⟨rfl, rfl, ?_⟩
  intro app h
  cases a1 with
  | none => simp [buildApp, resolveConfig] at h
  | some p =>
    obtain ⟨c, pid⟩ := p
    simp only [buildApp, resolveConfig] at h
    cases h
    exact ⟨rfl, rfl, rfl⟩

/-- Witness for C10 at a concrete input. -/
theorem C10_witness :
    resolveConfig authOk envComplete = resolveConfig authOk envComplete ∧
    buildApp authOk envComplete dateX = buildApp authOk envComplete dateX ∧
    (∀ app, buildApp authOk envComplete dateX = .ok app →
      app.root_agent.name = "bqvaisadk" ∧
      app.root_agent.generate_content_config.temperature = (0.1 : ℚ) ∧
      app.name = "app") :=
  C10_construction_deterministic authOk authOk envComplete envComplete
    dateX dateX rfl rfl rfl

end BqVais
